import Mathlib

/-!
Verification of the Todo-List-App authentication backend.

The definitions below are a shallow embedding of the Express/Mongoose
backend (`backend/routes/auth.js`, `backend/models/User.js`,
`backend/utils/email.js`).  bcrypt is modelled ideally: a hash is an
opaque value remembering the plaintext it was derived from, and
`bcrypt.compare` succeeds exactly on that plaintext; comparing against a
missing (`undefined`) hash throws, as bcryptjs does.  Time is
milliseconds since the epoch as a natural number.  `Math.random()` is
modelled as a rational `n / d` with `n < d` (so the value lies in
`[0, 1)`).  The Mongo collection is a list of user documents; `save`
writes back by `_id`.
-/

/-- Idealised bcrypt digest: an opaque value remembering the plaintext
it hashes.  Distinct from `String`, so a field of this type can never
hold a plaintext directly. -/
structure BHash where
  plain : String
deriving DecidableEq, Repr

/-- Model of `bcrypt.hashSync(s, 10)` (and of the async `bcrypt.hash`
used by the pre-save hook): produce the digest of `s`. -/
def bcryptHash (s : String) : BHash := ⟨s⟩

/-- Model of `bcrypt.compare(candidate, stored)`: rejects (throws) when
the stored hash is `undefined`/missing, otherwise resolves with whether
the candidate is the hashed plaintext. -/
def bcryptCompare (candidate : String) (stored : Option BHash) : Except String Bool :=
  match stored with
  | none => Except.error "Illegal arguments: String, undefined"
  | some h => Except.ok (candidate == h.plain)

/-- A user document of `backend/models/User.js` (`userSchema`).
`password` and the OTP fields are `select: false` in the schema, hence
optional here; routes that need them query with `.select('+...')`. -/
structure User where
  id : Nat
  email : String
  password : Option BHash
  name : String
  isVerified : Bool
  verificationOTP : Option BHash
  verificationOTPExpire : Option Nat
  resetPasswordOTP : Option BHash
  resetPasswordExpire : Option Nat
deriving DecidableEq, Repr

/-- JavaScript comparison `now > expire` when `expire` may be
`undefined`: `Date.now() > undefined` evaluates to `false` (NaN
comparison). -/
def jsGtOpt (now : Nat) (expire : Option Nat) : Bool :=
  match expire with
  | none => false
  | some t => now > t

/-- Method `comparePassword` of User.js (lines 67-73): delegates to
`bcrypt.compare`; on an internal comparison error it re-throws
`Error('Password comparison failed')`. -/
def comparePassword (candidatePassword : String) (storedPassword : Option BHash) :
    Except String Bool :=
  match bcryptCompare candidatePassword storedPassword with
  | Except.ok b => Except.ok b
  | Except.error _ => Except.error "Password comparison failed"

/-- Method `verifyResetOTP` of User.js (lines 90-101): return false
when the expiry has passed (strict `Date.now() > resetPasswordExpire`),
otherwise bcrypt-compare the candidate against the stored OTP hash,
returning false if the comparison throws. -/
def verifyResetOTP (now : Nat) (u : User) (candidateOTP : String) : Bool :=
  if jsGtOpt now u.resetPasswordExpire then
    false
  else
    match bcryptCompare candidateOTP u.resetPasswordOTP with
    | Except.ok b => b
    | Except.error _ => false

/-- Method `verifyVerificationOTP` of User.js (lines 112-121): the same
logic as `verifyResetOTP` over the verification-OTP fields. -/
def verifyVerificationOTP (now : Nat) (u : User) (candidateOTP : String) : Bool :=
  if jsGtOpt now u.verificationOTPExpire then
    false
  else
    match bcryptCompare candidateOTP u.verificationOTP with
    | Except.ok b => b
    | Except.error _ => false

/-- Method `generateResetOTP` of User.js (lines 76-87):
`otp = Math.floor(1000 + Math.random() * 9000).toString()`, store
`bcrypt.hashSync(otp, 10)` in `resetPasswordOTP`, set
`resetPasswordExpire = Date.now() + 10 * 60 * 1000`, return the plain
OTP.  With `Math.random()` the rational `n / d`,
`Math.floor(1000 + (n / d) * 9000) = 1000 + n * 9000 / d` in `Nat`. -/
def generateResetOTP (now n d : Nat) (u : User) : String × User :=
  let otp := toString (1000 + n * 9000 / d)
  (otp, { u with resetPasswordOTP := some (bcryptHash otp),
                 resetPasswordExpire := some (now + 10 * 60 * 1000) })

/-- Method `generateVerificationOTP` of User.js (lines 104-109):
identical construction over the verification-OTP fields. -/
def generateVerificationOTP (now n d : Nat) (u : User) : String × User :=
  let otp := toString (1000 + n * 9000 / d)
  (otp, { u with verificationOTP := some (bcryptHash otp),
                 verificationOTPExpire := some (now + 10 * 60 * 1000) })

/-- The externally visible part of an Express JSON response of
auth.js: HTTP status, `success`, `message`, and the optional `data`
payload fields the auth routes use (`token`, `email`,
`needsVerification`). -/
structure ApiResponse where
  status : Nat
  success : Bool
  message : String
  token : Option String
  dataEmail : Option String
  needsVerification : Option Bool
deriving DecidableEq, Repr

/-- A response with no `data` payload. -/
def plainResponse (status : Nat) (success : Bool) (message : String) : ApiResponse :=
  ⟨status, success, message, none, none, none⟩

/-- Query `User.findOne({ email })`: the first document whose email
equals the queried string. -/
def findOne (store : List User) (email : String) : Option User :=
  store.find? (fun u => u.email == email)

/-- Call `user.save()` on an existing document: write back by `_id`. -/
def updateUser (store : List User) (u : User) : List User :=
  store.map (fun v => if v.id == u.id then u else v)

/-- A fresh `_id` for `User.create`. -/
def freshId (store : List User) : Nat :=
  (store.map User.id).foldr (fun a b => max a b) 0 + 1

/-- Function `generateToken(user._id)` of middleware/auth.js: a JWT
signed over the user id, modelled opaquely. -/
def generateToken (id : Nat) : String := "jwt." ++ toString id

/-- Result object of the mailers in utils/email.js. -/
structure EmailResult where
  success : Bool
  messageId : Option String
  error : Option String
deriving DecidableEq, Repr

/-- Mailer `sendPasswordResetEmail` of utils/email.js:
`{ success: true, messageId }` when the transport delivers,
`{ success: false, error }` when it throws. -/
def sendPasswordResetEmail (delivered : Bool) : EmailResult :=
  if delivered then ⟨true, some "mid", none⟩
  else ⟨false, none, some "transport error"⟩

/-- Mailer `sendVerificationEmail` of utils/email.js:
`{ success: true, messageId }` when the transport delivers; when it
throws, the catch block logs the OTP to `otp.txt` and still returns
`{ success: true, error }` — its comment reads "Return success so
signup doesn't fail". -/
def sendVerificationEmail (delivered : Bool) : EmailResult :=
  if delivered then ⟨true, some "mid", none⟩
  else ⟨true, none, some "transport error"⟩

/-- JavaScript `String.prototype.toUpperCase()` over the string's
characters. -/
def jsToUpperCase (s : String) : String :=
  ⟨s.data.map Char.toUpper⟩

/-- JavaScript lowercasing, as applied by the schema's
`lowercase: true` transform on the email at save time. -/
def jsToLowerCase (s : String) : String :=
  ⟨s.data.map Char.toLower⟩

/-- Expression `email.split('@')[0]`: the prefix of the email before
the first `@` (the whole string when there is none). -/
def emailLocalPart (email : String) : String :=
  ⟨email.data.takeWhile (fun c => c != '@')⟩

/-- Line 31 of auth.js:
`const name = req.body.name || email.split('@')[0].toUpperCase()`.
A missing or empty request name (falsy in JS) defaults to the
upper-cased local part of the email. -/
def signupName (reqName : Option String) (email : String) : String :=
  match reqName with
  | some s => if s.isEmpty then jsToUpperCase (emailLocalPart email) else s
  | none => jsToUpperCase (emailLocalPart email)

/-- Route `POST /api/auth/signup` (auth.js lines 19-73).  `delivered`
says whether the SMTP transport delivers the verification email.  The
user is created with the schema transforms applied (email lowercased,
password hashed by the pre-save hook), a verification OTP is generated
and saved, and the verification email is sent; the route deletes the
user and answers 500 only when the mailer reports failure. -/
def signup (now n d : Nat) (delivered : Bool) (store : List User)
    (reqName : Option String) (email password : String) : ApiResponse × List User :=
  match findOne store email with
  | some _ => (plainResponse 400 false "User with this email already exists", store)
  | none =>
    let user : User :=
      { id := freshId store
        email := jsToLowerCase email
        password := some (bcryptHash password)
        name := signupName reqName email
        isVerified := false
        verificationOTP := none
        verificationOTPExpire := none
        resetPasswordOTP := none
        resetPasswordExpire := none }
    let p := generateVerificationOTP now n d user
    let created := p.2
    let store2 := store ++ [created]
    let emailResult := sendVerificationEmail delivered
    if !emailResult.success then
      (plainResponse 500 false
        "Error sending verification email. Please check your email address and try again.",
       store2.filter (fun v => v.id ≠ created.id))
    else
      ({ plainResponse 201 true
          "User registered. Please check your email for the verification code." with
          dataEmail := some created.email },
       store2)

/-- Route `POST /api/auth/login` (auth.js lines 140-195).  An exception
from `comparePassword` lands in the route-level catch (500).  The
unknown-email and wrong-password branches both answer
401 "Invalid email or password"; an unverified account answers
403 with `needsVerification` and the email; success answers 200 with a
token. -/
def login (store : List User) (email password : String) : ApiResponse :=
  match findOne store email with
  | none => plainResponse 401 false "Invalid email or password"
  | some user =>
    match comparePassword password user.password with
    | Except.error _ => plainResponse 500 false "Error logging in"
    | Except.ok isPasswordValid =>
      if !isPasswordValid then
        plainResponse 401 false "Invalid email or password"
      else if !user.isVerified then
        { plainResponse 403 false "Email not verified. Please verify your email." with
          dataEmail := some user.email, needsVerification := some true }
      else
        { plainResponse 200 true "Login successful" with
          token := some (generateToken user.id) }

/-- Route `POST /api/auth/forgot-password` (auth.js lines 202-247).
Unknown email: generic 200.  Known email: generate and save a reset
OTP, then send it; 500 if the mailer reports failure, otherwise a 200
whose message names the OTP and its validity window. -/
def forgotPassword (now n d : Nat) (delivered : Bool) (store : List User)
    (email : String) : ApiResponse × List User :=
  match findOne store email with
  | none =>
    (plainResponse 200 true "If an account exists with this email, an OTP has been sent",
     store)
  | some user =>
    let p := generateResetOTP now n d user
    let store2 := updateUser store p.2
    let emailResult := sendPasswordResetEmail delivered
    if !emailResult.success then
      (plainResponse 500 false "Error sending email. Please try again later.", store2)
    else
      ({ plainResponse 200 true "OTP sent to your email. Valid for 10 minutes." with
          dataEmail := some email },
       store2)

/-- Route `POST /api/auth/verify-otp` (auth.js lines 254-291): look the
user up, verify the reset OTP, answer — never calls `save()`. -/
def verifyOtpRoute (now : Nat) (store : List User) (email otp : String) :
    ApiResponse × List User :=
  match findOne store email with
  | none => (plainResponse 400 false "Invalid or expired OTP", store)
  | some user =>
    if user.resetPasswordOTP.isNone then
      (plainResponse 400 false "Invalid or expired OTP", store)
    else if verifyResetOTP now user otp then
      (plainResponse 200 true "OTP verified successfully", store)
    else
      (plainResponse 400 false "Invalid or expired OTP", store)

/-- Route `POST /api/auth/reset-password` (auth.js lines 298-341): same
lookup and OTP checks as verify-otp; on success assign the new
password (hashed by the pre-save hook), clear both reset fields and
save. -/
def resetPassword (now : Nat) (store : List User) (email otp newPassword : String) :
    ApiResponse × List User :=
  match findOne store email with
  | none => (plainResponse 400 false "Invalid or expired OTP", store)
  | some user =>
    if user.resetPasswordOTP.isNone then
      (plainResponse 400 false "Invalid or expired OTP", store)
    else if !(verifyResetOTP now user otp) then
      (plainResponse 400 false "Invalid or expired OTP", store)
    else
      let updated : User :=
        { user with
            password := some (bcryptHash newPassword)
            resetPasswordOTP := none
            resetPasswordExpire := none }
      (plainResponse 200 true
        "Password reset successful. You can now login with your new password.",
       updateUser store updated)

/-- A concrete verified user with password `secret1` and an in-flight
reset challenge (OTP `1234`, expiring at 600000 ms). -/
def otpBoundaryUser : User :=
  { id := 1
    email := "a@b.co"
    password := some (bcryptHash "secret1")
    name := "A"
    isVerified := true
    verificationOTP := none
    verificationOTPExpire := none
    resetPasswordOTP := some (bcryptHash "1234")
    resetPasswordExpire := some 600000 }

/-- A concrete verified user with password `secret1` and no in-flight
challenge. -/
def verifiedUser : User :=
  { id := 2
    email := "known@x.com"
    password := some (bcryptHash "secret1")
    name := "K"
    isVerified := true
    verificationOTP := none
    verificationOTPExpire := none
    resetPasswordOTP := none
    resetPasswordExpire := none }

/-- A concrete unverified user with password `secret1`. -/
def unverifiedUser : User :=
  { verifiedUser with id := 3, email := "new@x.com", isVerified := false }

/-- Helper: writing back (by `_id`) the user that `findOne` returned,
with its id and email unchanged, makes the written-back document the
one `findOne` now returns, provided the store's ids are distinct. -/
theorem findOne_updateUser (store : List User) (email : String) (u w : User)
    (hnodup : (store.map User.id).Nodup)
    (hfind : findOne store email = some u)
    (hid : w.id = u.id) (hemail : w.email = u.email) :
    findOne (updateUser store w) email = some w := by
  induction store with
  | nil => simp [findOne] at hfind
  | cons v rest ih =>
    rw [List.map_cons, List.nodup_cons] at hnodup
    obtain ⟨hvnot, hrest⟩ := hnodup
    cases hp : v.email == email with
    | true =>
      have hv : v = u := by
        have h0 : List.find? (fun x => x.email == email) (v :: rest) = some u := hfind
        simp only [List.find?_cons, hp] at h0
        injection h0
      subst hv
      show List.find? (fun x => x.email == email)
          (List.map (fun x => if x.id == w.id then w else x) (v :: rest)) = some w
      rw [List.map_cons]
      have hifw : (if v.id == w.id then w else v) = w := by
        simp [hid]
      rw [hifw]
      have hpw : (w.email == email) = true := by
        rw [hemail]
        exact hp
      simp only [List.find?_cons, hpw]
    | false =>
      have h1 : List.find? (fun x => x.email == email) rest = some u := by
        have h0 : List.find? (fun x => x.email == email) (v :: rest) = some u := hfind
        simp only [List.find?_cons, hp] at h0
        exact h0
      have humem : u ∈ rest := List.mem_of_find?_eq_some h1
      have hvu : v.id ≠ u.id := by
        intro hcontra
        exact hvnot (hcontra ▸ List.mem_map_of_mem User.id humem)
      show List.find? (fun x => x.email == email)
          (List.map (fun x => if x.id == w.id then w else x) (v :: rest)) = some w
      rw [List.map_cons]
      have hifv : (if v.id == w.id then w else v) = v := by
        have hb : (v.id == w.id) = false := by
          rw [hid]
          exact beq_eq_false_iff_ne.mpr hvu
        simp [hb]
      rw [hifv]
      simp only [List.find?_cons, hp]
      exact ih hrest h1

/-- Helper: a number in `[1000, 9999]` has exactly four decimal digits
and a nonzero leading digit. -/
theorem fourDigit_decimal (c : Nat) (h1 : 1000 ≤ c) (h2 : c ≤ 9999) :
    (Nat.digits 10 c).length = 4 ∧ (Nat.digits 10 c).getLast? ≠ some 0 := by
  have hc0 : c ≠ 0 := by omega
  constructor
  · rw [Nat.digits_len 10 c (by norm_num) hc0]
    have hlog : Nat.log 10 c = 3 := by
      apply Nat.log_eq_of_pow_le_of_lt_pow
      · norm_num
        omega
      · norm_num
        omega
    omega
  · have hne : Nat.digits 10 c ≠ [] := Nat.digits_ne_nil_iff_ne_zero.mpr hc0
    rw [List.getLast?_eq_getLast _ hne]
    intro hcontra
    have hlast := Nat.getLast_digit_ne_zero 10 hc0
    exact hlast (by injection hcontra)

/-- C3: the claim says verification returns false whenever
`now >= expiresAt`.  Counterexample: at `now = expiresAt` exactly
(600000 ≥ 600000), the code's strict `Date.now() > resetPasswordExpire`
check does not fire and the correct code still verifies. -/
theorem c3_counterexample :
    600000 ≥ 600000 ∧ verifyResetOTP 600000 otpBoundaryUser "1234" = true := by
  exact ⟨le_refl _, by decide⟩

/-- C3 (amended): OTP verification returns false when the challenge is
absent; it returns false whenever `now > expiresAt` (strict — at
`now = expiresAt` a correct code still verifies), and the expiry check
precedes any hash comparison (an expired code is rejected whatever the
stored hash and candidate are); a correct code at `expiresAt - 1`
verifies and the same code at `expiresAt + 1` is rejected.  Both the
reset and the verification variants satisfy this. -/
theorem c3_otp_expiry (now : Nat) (u v : User) (c : String) (e : Nat)
    (habsR : u.resetPasswordOTP = none)
    (habsV : u.verificationOTP = none)
    (hexpR : jsGtOpt now v.resetPasswordExpire = true)
    (hexpV : jsGtOpt now v.verificationOTPExpire = true)
    (_he : 1 ≤ e) :
    verifyResetOTP now u c = false ∧
    verifyVerificationOTP now u c = false ∧
    verifyResetOTP now v c = false ∧
    verifyVerificationOTP now v c = false ∧
    (∀ w : User, w.resetPasswordExpire = some e →
      w.resetPasswordOTP = some (bcryptHash c) →
      verifyResetOTP (e - 1) w c = true ∧ verifyResetOTP (e + 1) w c = false) := by
  refine ⟨?_, ?_, ?_, ?_, ?_⟩
  · simp [verifyResetOTP, bcryptCompare, habsR]
  · simp [verifyVerificationOTP, bcryptCompare, habsV]
  · simp [verifyResetOTP, hexpR]
  · simp [verifyVerificationOTP, hexpV]
  · intro w hwe hwo
    constructor
    · simp [verifyResetOTP, jsGtOpt, hwe, hwo, bcryptCompare, bcryptHash]
    · simp [verifyResetOTP, jsGtOpt, hwe, hwo]

/-- Witness for `c3_otp_expiry` at concrete users and expiry 600000. -/
theorem c3_otp_expiry_witness :
    verifyResetOTP 599999 otpBoundaryUser "1234" = true ∧
    verifyResetOTP 600001 otpBoundaryUser "1234" = false := by
  have h := c3_otp_expiry 700000
    { otpBoundaryUser with resetPasswordOTP := none, verificationOTP := none }
    { otpBoundaryUser with verificationOTPExpire := some 600000 }
    "1234" 600000
    (by decide) (by decide) (by decide) (by decide) (by decide)
  exact h.2.2.2.2 otpBoundaryUser (by decide) (by decide)

/-- C6: the claim says `comparePassword` fails closed, returning false
on an internal comparison error.  Counterexample: with a missing stored
hash the underlying `bcrypt.compare` throws, and `comparePassword`
re-throws `Error('Password comparison failed')` to its caller instead
of returning false. -/
theorem c6_counterexample :
    comparePassword "secret1" none = Except.error "Password comparison failed" ∧
    comparePassword "secret1" none ≠ Except.ok false := by
  refine ⟨rfl, ?_⟩
  intro h
  simp [comparePassword, bcryptCompare] at h

/-- C6 (amended): on any internal comparison error `comparePassword`
raises `Error('Password comparison failed')` to its caller rather than
returning false; when the underlying comparison succeeds its boolean
result is returned unchanged. -/
theorem c6_compare_password_raises (candidate : String) (stored : Option BHash) :
    (∀ e, bcryptCompare candidate stored = Except.error e →
      comparePassword candidate stored = Except.error "Password comparison failed") ∧
    (∀ b, bcryptCompare candidate stored = Except.ok b →
      comparePassword candidate stored = Except.ok b) := by
  constructor
  · intro e he
    simp [comparePassword, he]
  · intro b hb
    simp [comparePassword, hb]

/-- Witness for `c6_compare_password_raises`: a missing stored hash
makes the primitive throw, and `comparePassword` re-throws. -/
theorem c6_compare_password_raises_witness :
    comparePassword "secret1" none = Except.error "Password comparison failed" := by
  exact (c6_compare_password_raises "secret1" none).1
    "Illegal arguments: String, undefined" rfl

/-- C1: the claim says a signup whose verification email fails delivery
deletes the new account and fails.  Counterexample: on an empty store,
a signup whose delivery fails still answers 201 success and the account
for that email remains in the store. -/
theorem c1_counterexample :
    (signup 0 0 1 false [] none "a@b.co" "secret1").1.status = 201 ∧
    (signup 0 0 1 false [] none "a@b.co" "secret1").1.success = true ∧
    (signup 0 0 1 false [] none "a@b.co" "secret1").2.any
      (fun u => u.email == "a@b.co") = true := by
  decide

/-- C1 (amended): the route deletes the account and answers 500 only
when `sendVerificationEmail` reports failure, which never happens: the
mailer returns `success: true` even when delivery fails (logging the
OTP instead), so a signup with a fresh email whose verification email
fails delivery still answers 201 success and the account remains. -/
theorem c1_signup_no_rollback (now n d : Nat) (store : List User)
    (reqName : Option String) (email password : String)
    (hfresh : findOne store email = none) :
    (sendVerificationEmail false).success = true ∧
    (signup now n d false store reqName email password).1.status = 201 ∧
    (signup now n d false store reqName email password).1.success = true ∧
    (signup now n d false store reqName email password).2.any
      (fun u => u.email == jsToLowerCase email) = true := by
  refine ⟨rfl, ?_, ?_, ?_⟩ <;>
    simp [signup, hfresh, generateVerificationOTP, sendVerificationEmail, plainResponse]

/-- Witness for `c1_signup_no_rollback` on an empty store. -/
theorem c1_signup_no_rollback_witness :
    (signup 0 0 1 false [] none "a@b.co" "secret1").1.status = 201 ∧
    (signup 0 0 1 false [] none "a@b.co" "secret1").2.any
      (fun u => u.email == "a@b.co") = true := by
  have h := c1_signup_no_rollback 0 0 1 [] none "a@b.co" "secret1" rfl
  exact ⟨h.2.1, by have := h.2.2.2; simpa using this⟩

/-- C2: evaluation of forgot-password at a store holding exactly
`verifiedUser`.  The response for the existing account differs from the
generic response for an unknown email (different message, and a 500 on
delivery failure), so the route reveals account existence, contradicting
both the claim and the route's own comment "Don't reveal if user exists
or not for security". -/
theorem c2_forgot_password_distinguishes :
    (forgotPassword 0 0 1 true [verifiedUser] "known@x.com").1.message =
      "OTP sent to your email. Valid for 10 minutes." ∧
    (forgotPassword 0 0 1 true [verifiedUser] "nobody@x.com").1.message =
      "If an account exists with this email, an OTP has been sent" ∧
    (forgotPassword 0 0 1 true [verifiedUser] "known@x.com").1 ≠
      (forgotPassword 0 0 1 true [verifiedUser] "nobody@x.com").1 ∧
    (forgotPassword 0 0 1 false [verifiedUser] "known@x.com").1.status = 500 ∧
    (forgotPassword 0 0 1 false [verifiedUser] "nobody@x.com").1.status = 200 := by
  decide

/-- C4: logging in with the correct password into an unverified account
answers the 403 NotVerified response carrying the account email and the
`needsVerification` flag, with no token, and that response differs from
the 401 InvalidCredentials response in both status and message. -/
theorem c4_login_unverified (store : List User) (email password : String) (u : User)
    (hfind : findOne store email = some u)
    (hpw : comparePassword password u.password = Except.ok true)
    (hver : u.isVerified = false) :
    login store email password =
      { status := 403, success := false,
        message := "Email not verified. Please verify your email.",
        token := none, dataEmail := some u.email, needsVerification := some true } ∧
    (login store email password).status ≠ 401 ∧
    (login store email password).message ≠ "Invalid email or password" ∧
    (login store email password).token = none := by
  have hl : login store email password =
      { status := 403, success := false,
        message := "Email not verified. Please verify your email.",
        token := none, dataEmail := some u.email, needsVerification := some true } := by
    simp [login, hfind, hpw, hver, plainResponse]
  refine ⟨hl, ?_, ?_, ?_⟩ <;> rw [hl] <;> simp

/-- Witness for `c4_login_unverified` on a store holding exactly
`unverifiedUser`. -/
theorem c4_login_unverified_witness :
    (login [unverifiedUser] "new@x.com" "secret1").status = 403 ∧
    (login [unverifiedUser] "new@x.com" "secret1").token = none := by
  have h := c4_login_unverified [unverifiedUser] "new@x.com" "secret1" unverifiedUser
    rfl rfl rfl
  exact ⟨by rw [h.1], h.2.2.2⟩

/-- C5: a login with an email matching no account and a login with a
known email but a wrong password produce the same response — the
401 response with message "Invalid email or password" — so the two
failures cannot be distinguished. -/
theorem c5_login_enumeration_resistance (store : List User) (e1 e2 p1 p2 : String)
    (u : User)
    (h1 : findOne store e1 = none)
    (h2 : findOne store e2 = some u)
    (hpw : comparePassword p2 u.password = Except.ok false) :
    login store e1 p1 = login store e2 p2 ∧
    login store e1 p1 = plainResponse 401 false "Invalid email or password" := by
  constructor <;> simp [login, h1, h2, hpw]

/-- Witness for `c5_login_enumeration_resistance`: unknown email
`nobody@x.com` versus `known@x.com` with the wrong password. -/
theorem c5_login_enumeration_resistance_witness :
    login [verifiedUser] "nobody@x.com" "whatever" =
      login [verifiedUser] "known@x.com" "wrongpass" := by
  exact (c5_login_enumeration_resistance [verifiedUser] "nobody@x.com" "known@x.com"
    "whatever" "wrongpass" verifiedUser rfl rfl rfl).1

/-- C7: resetting the password of a verified account holding an
unexpired reset challenge, with the correct OTP, answers 200; in the
resulting store the account's new password verifies, the old one (when
different) no longer does, both reset-challenge fields are cleared, and
re-presenting the same OTP to reset-password answers
400 "Invalid or expired OTP". -/
theorem c7_reset_password (now now2 : Nat) (store : List User)
    (email otp newPassword oldPassword newPassword2 : String) (u : User)
    (hnodup : (store.map User.id).Nodup)
    (hfind : findOne store email = some u)
    (_hver : u.isVerified = true)
    (hotp : u.resetPasswordOTP = some (bcryptHash otp))
    (hexp : jsGtOpt now u.resetPasswordExpire = false)
    (hne : oldPassword ≠ newPassword)
    (_hold : u.password = some (bcryptHash oldPassword)) :
    (resetPassword now store email otp newPassword).1.status = 200 ∧
    (resetPassword now store email otp newPassword).1.success = true ∧
    ∃ w, findOne (resetPassword now store email otp newPassword).2 email = some w ∧
      comparePassword newPassword w.password = Except.ok true ∧
      comparePassword oldPassword w.password = Except.ok false ∧
      w.resetPasswordOTP = none ∧
      w.resetPasswordExpire = none ∧
      (resetPassword now2 (resetPassword now store email otp newPassword).2
        email otp newPassword2).1 = plainResponse 400 false "Invalid or expired OTP" := by
  have hverify : verifyResetOTP now u otp = true := by
    simp [verifyResetOTP, hexp, hotp, bcryptCompare, bcryptHash]
  have hnotnone : u.resetPasswordOTP.isNone = false := by
    simp [hotp]
  have hres : resetPassword now store email otp newPassword =
      (plainResponse 200 true
        "Password reset successful. You can now login with your new password.",
       updateUser store { u with password := some (bcryptHash newPassword),
                                 resetPasswordOTP := none,
                                 resetPasswordExpire := none }) := by
    simp [resetPassword, hfind, hnotnone, hverify]
  set w : User := { u with password := some (bcryptHash newPassword),
                           resetPasswordOTP := none,
                           resetPasswordExpire := none } with hw
  have hfind2 : findOne (resetPassword now store email otp newPassword).2 email = some w := by
    rw [hres]
    exact findOne_updateUser store email u w hnodup hfind rfl rfl
  refine ⟨by rw [hres]; rfl, by rw [hres]; rfl, w, hfind2, ?_, ?_, rfl, rfl, ?_⟩
  · simp [comparePassword, bcryptCompare, hw, bcryptHash]
  · have hb : (oldPassword == newPassword) = false := beq_eq_false_iff_ne.mpr hne
    simp [comparePassword, bcryptCompare, hw, bcryptHash, hb]
  · have hstore2 : (resetPassword now store email otp newPassword).2 = updateUser store w := by
      rw [hres]
    have hfind3 : findOne (updateUser store w) email = some w := by
      rw [← hstore2]
      exact hfind2
    rw [hstore2]
    simp [resetPassword, hfind3, hw, plainResponse]

/-- Witness for `c7_reset_password` on a store holding exactly
`otpBoundaryUser`, resetting from `secret1` to `newpass1` with the
correct OTP `1234` before its expiry. -/
theorem c7_reset_password_witness :
    (resetPassword 0 [otpBoundaryUser] "a@b.co" "1234" "newpass1").1.status = 200 ∧
    ∃ w, findOne (resetPassword 0 [otpBoundaryUser] "a@b.co" "1234" "newpass1").2
        "a@b.co" = some w ∧
      comparePassword "newpass1" w.password = Except.ok true := by
  have h := c7_reset_password 0 0 [otpBoundaryUser] "a@b.co" "1234" "newpass1"
    "secret1" "x" otpBoundaryUser (by decide) rfl rfl rfl rfl (by decide) rfl
  obtain ⟨hs, _, w, hfw, hnew, _⟩ := h
  exact ⟨hs, w, hfw, hnew⟩

/-- C8: every issued OTP (reset or verification) is the decimal string
of a number in `[1000, 9999]` — four decimal digits, leading zero
impossible — the challenge stores only the bcrypt hash of the code, and
the stored expiry is exactly `now + 10` minutes. -/
theorem c8_otp_issue (now n d code : Nat) (u v : User)
    (hd : 0 < d) (hn : n < d)
    (hcode : code = 1000 + n * 9000 / d) :
    (generateResetOTP now n d u).1 = toString code ∧
    1000 ≤ code ∧ code ≤ 9999 ∧
    (Nat.digits 10 code).length = 4 ∧
    (Nat.digits 10 code).getLast? ≠ some 0 ∧
    (generateResetOTP now n d u).2.resetPasswordOTP =
      some (bcryptHash (toString code)) ∧
    (generateResetOTP now n d u).2.resetPasswordExpire =
      some (now + 10 * 60 * 1000) ∧
    (generateVerificationOTP now n d v).1 = toString code ∧
    (generateVerificationOTP now n d v).2.verificationOTP =
      some (bcryptHash (toString code)) ∧
    (generateVerificationOTP now n d v).2.verificationOTPExpire =
      some (now + 10 * 60 * 1000) := by
  have hlt : n * 9000 / d < 9000 := by
    rw [Nat.div_lt_iff_lt_mul hd]
    have h' : n * 9000 < d * 9000 := mul_lt_mul_of_pos_right hn (by norm_num)
    omega
  have h1 : 1000 ≤ code := hcode ▸ Nat.le_add_right 1000 _
  have h2 : code ≤ 9999 := by
    rw [hcode]
    have : n * 9000 / d ≤ 8999 := Nat.le_of_lt_succ hlt
    omega
  obtain ⟨hlen, hlast⟩ := fourDigit_decimal code h1 h2
  subst hcode
  exact ⟨rfl, h1, h2, hlen, hlast, rfl, rfl, rfl, rfl, rfl⟩

/-- Witness for `c8_otp_issue` at `n = 0`, `d = 1` (code 1000). -/
theorem c8_otp_issue_witness :
    (generateResetOTP 0 0 1 verifiedUser).1 = "1000" ∧
    (generateResetOTP 0 0 1 verifiedUser).2.resetPasswordExpire = some 600000 := by
  have h := c8_otp_issue 0 0 1 1000 verifiedUser verifiedUser
    (by decide) (by decide) (by decide)
  exact ⟨by rw [h.1]; decide, by rw [h.2.2.2.2.2.2.1]⟩

/-- C9: the claim says a signup without a name defaults the display
name to the local part of the email.  Counterexample: for
`alice@x.com` the code stores `ALICE` — the upper-cased local part —
which differs from the local part `alice`. -/
theorem c9_counterexample :
    signupName none "alice@x.com" = "ALICE" ∧
    signupName none "alice@x.com" ≠ emailLocalPart "alice@x.com" := by
  decide

/-- C9 (amended): when the signup request carries no name (or an empty
one, falsy in JS), the stored name is the upper-cased local part of the
email. -/
theorem c9_signup_name_default (email : String) (reqName : Option String)
    (hmissing : reqName = none ∨ reqName = some "") :
    signupName reqName email = jsToUpperCase (emailLocalPart email) := by
  rcases hmissing with h | h <;> simp [signupName, h, String.isEmpty]

/-- Witness for `c9_signup_name_default` at `alice@x.com` with no
name supplied. -/
theorem c9_signup_name_default_witness :
    signupName none "alice@x.com" = "ALICE" := by
  have h := c9_signup_name_default "alice@x.com" none (Or.inl rfl)
  rw [h]; decide

/-- C10: verify-otp is read-only on the store — the post-state equals
the pre-state for every input, so the reset challenge and every other
account field survive the call — and a successfully pre-checked OTP
still succeeds at reset-password on the unchanged store. -/
theorem c10_verify_otp_readonly (now : Nat) (store : List User)
    (email otp newPassword : String) :
    (verifyOtpRoute now store email otp).2 = store ∧
    ((verifyOtpRoute now store email otp).1.status = 200 →
      (resetPassword now store email otp newPassword).1.status = 200) := by
  rcases hf : findOne store email with _ | u
  · constructor
    · simp [verifyOtpRoute, hf]
    · intro h200
      simp [verifyOtpRoute, hf, plainResponse] at h200
  · by_cases h1 : u.resetPasswordOTP.isNone
    · constructor
      · simp [verifyOtpRoute, hf, h1]
      · intro h200
        simp [verifyOtpRoute, hf, h1, plainResponse] at h200
    · by_cases h2 : verifyResetOTP now u otp
      · constructor
        · simp [verifyOtpRoute, hf, h1, h2]
        · intro _
          simp [resetPassword, hf, h1, h2, plainResponse]
      · constructor
        · simp [verifyOtpRoute, hf, h1, h2]
        · intro h200
          simp [verifyOtpRoute, hf, h1, h2, plainResponse] at h200

/-- Witness for `c10_verify_otp_readonly` pre-checking the correct OTP
of `otpBoundaryUser` and then consuming it at reset-password. -/
theorem c10_verify_otp_readonly_witness :
    (verifyOtpRoute 0 [otpBoundaryUser] "a@b.co" "1234").2 = [otpBoundaryUser] ∧
    (resetPassword 0 [otpBoundaryUser] "a@b.co" "1234" "newpass1").1.status = 200 := by
  have h := c10_verify_otp_readonly 0 [otpBoundaryUser] "a@b.co" "1234" "newpass1"
  exact ⟨h.1, h.2 (by decide)⟩
